import Mathlib

/-
Verification of the log-analysis pipeline: per-file error extraction and
classification, cross-file aggregation, solution generation and ranking, and
the three-stage orchestrator.  The Python sources are shallowly embedded:
dictionaries whose keys may be absent become structures with Option fields,
the text-generation service and the notification dispatcher become explicit
oracle parameters (the code only ever inspects their returned values), and
Python exceptions raised by those collaborators become constructors of the
oracle response types.
-/

set_option maxHeartbeats 1000000

/-! ### String helpers (Python str.lower and the "in" substring test) -/

/-- Lowercasing of a string, character by character (Python str.lower on the
ASCII log text handled here). -/
def pyLower (s : String) : String :=
  String.mk (s.toList.map Char.toLower)

/-- Python str.split on a single newline character, over the character
list: split("\n") of "a\nb" is [a, b], of "" is [""], of "a\n" is [a, ""]. -/
def splitNl : List Char → List (List Char)
  | [] => [[]]
  | c :: rest =>
      let r := splitNl rest
      if c = '\n' then [] :: r
      else
        match r with
        | [] => [[c]]
        | l :: ls => (c :: l) :: ls

/-- Python log_content.split("\n") as a list of strings. -/
def pyLinesOf (s : String) : List String :=
  (splitNl s.toList).map String.mk

/-- Python s[:n] prefix slice. -/
def pyTake (s : String) (n : Nat) : String :=
  String.mk (s.toList.take n)

/-- Test that the second list is an initial segment of the first. -/
def leadEq : List Char → List Char → Bool
  | _, [] => true
  | [], _ :: _ => false
  | a :: s, b :: p => a == b && leadEq s p

/-- Test that the pattern occurs contiguously inside the list
(Python substring containment on the underlying characters). -/
def hasSub : List Char → List Char → Bool
  | [], p => p.isEmpty
  | s@(_ :: s₂), p => leadEq s p || hasSub s₂ p

/-- Python "pat in s" substring test. -/
def strContainsSub (s pat : String) : Bool :=
  hasSub s.toList pat.toList

/-! ### Data model: records, classifications, oracle responses -/

/-- One parsed error record, as produced by the classifier JSON response.
Every field is optional because the response is arbitrary JSON; use sites
read the fields with Python dict.get defaults. -/
structure ErrorRecord where
  error_type : Option String
  severity : Option String
  frequency : Option Int
  first_occurrence : Option String
  last_occurrence : Option String
  message : Option String
deriving DecidableEq

/-- The JSON object shape requested from the generation service by
classify_single_log (error_count, errors, categories, summary). -/
structure ClassificationJson where
  error_count : Option Int
  errors : Option (List ErrorRecord)
  categories : Option (List String)
  summary : Option String
deriving DecidableEq

/-- The per-file classification dictionary returned by classify_single_log.
The filename and status keys are always set by the function; the rest mirror
whatever the parsed JSON carried (hence Option). -/
structure FileClassification where
  filename : String
  error_count : Option Int
  errors : Option (List ErrorRecord)
  categories : Option (List String)
  summary : Option String
  status : String
deriving DecidableEq

/-- One input log file dictionary; process_multiple_logs reads both keys
with dict.get defaults, so they are optional. -/
structure LogFile where
  filename : Option String
  content : Option String
deriving DecidableEq

/-- log_file.get("filename", "unknown") -/
def lfName (lf : LogFile) : String := lf.filename.getD "unknown"

/-- log_file.get("content", "") -/
def lfContent (lf : LogFile) : String := lf.content.getD ""

/-- Composite behaviour of the generation call inside classify_single_log:
the invoke / markdown-strip / json.loads sequence either produces a parsed
object, raises json.JSONDecodeError, or raises some other exception. -/
inductive ClassifyResp where
  | ok (j : ClassificationJson)
  | parseError (msg : String)
  | exn (msg : String)
deriving DecidableEq

/-- The JSON object shape requested by _aggregate_analysis.  The parsed
response is returned as-is without validation, hence all fields optional. -/
structure AnalysisJson where
  overall_severity : Option String
  primary_issue_category : Option String
  key_findings : Option (List String)
  recommended_actions : Option (List String)
  risk_assessment : Option String
deriving DecidableEq

/-- An empty JSON dictionary in analysis position (every key absent). -/
def emptyAnalysisJson : AnalysisJson :=
  { overall_severity := none, primary_issue_category := none, key_findings := none,
    recommended_actions := none, risk_assessment := none }

/-- Behaviour of the generation call inside _aggregate_analysis: a parsed
object, or any exception (the code catches all exceptions uniformly). -/
inductive AnalysisResp where
  | ok (j : AnalysisJson)
  | fail (msg : String)
deriving DecidableEq

/-! ### Line Extractor (two source variants) -/

namespace ErrorClassificationAgent

/-- Keyword set of ErrorClassificationAgent.extract_error_lines. -/
def error_keywords : List String :=
  ["error", "exception", "failed", "failure", "fatal",
   "traceback", "stack trace", "err", "critical",
   "panic", "abort", "timeout", "denied", "forbidden",
   "warning", "warn", "alert"]

/-- ErrorClassificationAgent.extract_error_lines: keep the lines whose
lowercase form contains a keyword, then return the last 100 of them. -/
def extract_error_lines (log_content : String) : List String :=
  let lines := pyLinesOf log_content
  let error_lines := lines.filter
    (fun line => error_keywords.any (fun keyword => strContainsSub (pyLower line) keyword))
  if error_lines.length > 100 then error_lines.drop (error_lines.length - 100) else error_lines

/-- classify_single_log together with the number of generation-service calls
it performs (0 when no error lines were extracted, 1 otherwise). -/
def classify_single_logT (resp : ClassifyResp) (log_content : String)
    (filename : String) : FileClassification × Nat :=
  let error_lines := extract_error_lines log_content
  if error_lines.isEmpty then
    ({ filename := filename, error_count := some 0, errors := some [],
       categories := none, summary := none, status := "no_errors" }, 0)
  else
    match resp with
    | .ok j =>
        ({ filename := filename, error_count := j.error_count, errors := j.errors,
           categories := j.categories, summary := j.summary, status := "analyzed" }, 1)
    | .parseError msg =>
        ({ filename := filename, error_count := some (error_lines.length : Int),
           errors := some [{ error_type := some "Parse Error", severity := some "Medium",
                             frequency := none, first_occurrence := none,
                             last_occurrence := none, message := some msg }],
           categories := none, summary := none, status := "parse_error" }, 1)
    | .exn msg =>
        ({ filename := filename, error_count := some (error_lines.length : Int),
           errors := some [{ error_type := some "Analysis Error", severity := some "High",
                             frequency := none, first_occurrence := none,
                             last_occurrence := none, message := some msg }],
           categories := none, summary := none, status := "error" }, 1)

/-- ErrorClassificationAgent.classify_single_log, with the service behaviour
passed as an oracle.  Total by construction: every service behaviour is
mapped to a FileClassification (the two except branches of the source). -/
def classify_single_log (resp : ClassifyResp) (log_content : String)
    (filename : String) : FileClassification :=
  (classify_single_logT resp log_content filename).1

end ErrorClassificationAgent

namespace ErrorAnalyzer

/-- Keyword set of ErrorAnalyzer.extract_error_lines (the single-file
variant: no warning / warn / alert keywords). -/
def error_keywords : List String :=
  ["error", "exception", "failed", "failure", "fatal",
   "traceback", "stack trace", "err", "critical",
   "panic", "abort", "timeout", "denied", "forbidden"]

/-- ErrorAnalyzer.extract_error_lines: keyword filter, then the last 50. -/
def extract_error_lines (log_content : String) : List String :=
  let lines := pyLinesOf log_content
  let error_lines := lines.filter
    (fun line => error_keywords.any (fun keyword => strContainsSub (pyLower line) keyword))
  if error_lines.length > 50 then error_lines.drop (error_lines.length - 50) else error_lines

end ErrorAnalyzer

/-! ### Cross-File Aggregator -/

/-- One value of the error_types mapping built by process_multiple_logs.
The files set is modelled as a duplicate-free list in insertion order. -/
structure AggEntry where
  count : Int
  severity : String
  files : List String
deriving DecidableEq

/-- The severity_counts histogram with its four fixed buckets. -/
structure SeverityCounts where
  critical : Nat
  high : Nat
  medium : Nat
  low : Nat
deriving DecidableEq

/-- severity_counts = Critical 0, High 0, Medium 0, Low 0 -/
def initSeverityCounts : SeverityCounts :=
  { critical := 0, high := 0, medium := 0, low := 0 }

/-- if severity in severity_counts: severity_counts[severity] += 1 -/
def bumpSeverity (sc : SeverityCounts) (sev : String) : SeverityCounts :=
  if sev = "Critical" then { sc with critical := sc.critical + 1 }
  else if sev = "High" then { sc with high := sc.high + 1 }
  else if sev = "Medium" then { sc with medium := sc.medium + 1 }
  else if sev = "Low" then { sc with low := sc.low + 1 }
  else sc

/-- error.get("error_type", "Unknown") -/
def recordType (r : ErrorRecord) : String := r.error_type.getD "Unknown"

/-- error.get("severity", "Medium") -/
def recordSeverity (r : ErrorRecord) : String := r.severity.getD "Medium"

/-- error.get("frequency", 1) -/
def recordFreq (r : ErrorRecord) : Int := r.frequency.getD 1

/-- Python dict lookup on the insertion-ordered error_types mapping. -/
def lookupT : List (String × AggEntry) → String → Option AggEntry
  | [], _ => none
  | (k, e) :: rest, t => if k = t then some e else lookupT rest t

/-- Python set.add on the files set (list model, insertion order). -/
def addFile (files : List String) (fn : String) : List String :=
  if fn ∈ files then files else files ++ [fn]

/-- The per-record mapping update of process_multiple_logs: create the entry
for the error type if absent (count 0, first-seen severity, empty file set),
then add the frequency to count and the filename to the file set.  A missing
key is appended at the end, matching dict insertion order. -/
def insertRecord (m : List (String × AggEntry)) (t : String) (sev : String)
    (freq : Int) (fn : String) : List (String × AggEntry) :=
  match m with
  | [] => [(t, { count := freq, severity := sev, files := [fn] })]
  | (k, e) :: rest =>
      if k = t then
        (k, { e with count := e.count + freq, files := addFile e.files fn }) :: rest
      else
        (k, e) :: insertRecord rest t sev freq fn

/-- The mutable aggregation state of one process_multiple_logs run. -/
structure AggState where
  error_types : List (String × AggEntry)
  severity_counts : SeverityCounts
deriving DecidableEq

/-- The whole body of the per-record loop in process_multiple_logs. -/
def processRecord (fn : String) (st : AggState) (r : ErrorRecord) : AggState :=
  { error_types := insertRecord st.error_types (recordType r) (recordSeverity r) (recordFreq r) fn,
    severity_counts := bumpSeverity st.severity_counts (recordSeverity r) }

/-- The result dictionary of process_multiple_logs (the timestamp key is
omitted: wall-clock time is outside the embedding). -/
structure AggregationResult where
  files_processed : Nat
  total_errors : Int
  file_results : List FileClassification
  aggregated_errors : List (String × AggEntry)
  severity_distribution : SeverityCounts
  aggregated_analysis : AnalysisJson
deriving DecidableEq

/-- ErrorClassificationAgent._aggregate_analysis: return the parsed response
unchanged, or the fixed fallback object on any exception. -/
def aggregateAnalysis (resp : AnalysisResp) : AnalysisJson :=
  match resp with
  | .ok j => j
  | .fail msg =>
      { overall_severity := some "Medium",
        primary_issue_category := some "General",
        key_findings := some ["Analysis completed with errors"],
        recommended_actions := some ["Review logs manually"],
        risk_assessment := some ("Analysis error: " ++ msg) }

/-- ErrorClassificationAgent.process_multiple_logs, with the per-file
classification abstracted as a function (in the source it is
classify_single_log applied to the file, itself driven by the service). -/
def process_multiple_logs (classifyOf : LogFile → FileClassification)
    (aresp : AnalysisResp) (log_files : List LogFile) : AggregationResult :=
  let step := fun (acc : List FileClassification × Int × AggState) (lf : LogFile) =>
    let result := classifyOf lf
    (acc.1 ++ [result],
     acc.2.1 + result.error_count.getD 0,
     (result.errors.getD []).foldl (fun s r => processRecord (lfName lf) s r) acc.2.2)
  let folded := log_files.foldl step
    ([], 0, { error_types := [], severity_counts := initSeverityCounts })
  { files_processed := log_files.length,
    total_errors := folded.2.1,
    file_results := folded.1,
    aggregated_errors := folded.2.2.error_types,
    severity_distribution := folded.2.2.severity_counts,
    aggregated_analysis := aggregateAnalysis aresp }

/-! ### Specification functions for the aggregation claims -/

/-- All (filename, record) pairs fed to the aggregation loop, in order. -/
def recPairs (classifyOf : LogFile → FileClassification)
    (log_files : List LogFile) : List (String × ErrorRecord) :=
  log_files.flatMap (fun lf => ((classifyOf lf).errors.getD []).map (fun r => (lfName lf, r)))

/-- The pairs whose record carries the given error type. -/
def pairsOf (t : String) (pairs : List (String × ErrorRecord)) : List (String × ErrorRecord) :=
  pairs.filter (fun p => recordType p.2 == t)

/-- Total frequency contributed to the given error type. -/
def freqSum (t : String) (pairs : List (String × ErrorRecord)) : Int :=
  ((pairsOf t pairs).map (fun p => recordFreq p.2)).sum

/-- Total frequency over every record of every file. -/
def freqSumAll (pairs : List (String × ErrorRecord)) : Int :=
  (pairs.map (fun p => recordFreq p.2)).sum

/-- Sum of the count field over all aggregated entries. -/
def countSum (m : List (String × AggEntry)) : Int :=
  (m.map (fun p => p.2.count)).sum

/-- The filenames contributing records of the given error type (with
multiplicity; the entry keeps them as a set). -/
def contributingFiles (t : String) (pairs : List (String × ErrorRecord)) : List String :=
  (pairsOf t pairs).map Prod.fst

/-- The aggregation loop replayed over a flat pair list. -/
def aggPairs (pairs : List (String × ErrorRecord)) (st : AggState) : AggState :=
  pairs.foldl (fun s p => processRecord p.1 s p.2) st

/-- The initial aggregation state of a run. -/
def initAggState : AggState :=
  { error_types := [], severity_counts := initSeverityCounts }

/-! ### Solution Generator and Ranker -/

/-- One solution candidate dictionary; all fields optional, being arbitrary
parsed JSON. -/
structure Solution where
  rank : Option Int
  title : Option String
  description : Option String
  effectiveness : Option String
  complexity : Option String
  time_estimate : Option String
  steps : Option (List String)
  code_example : Option String
  prerequisites : Option (List String)
  risk_level : Option String
deriving DecidableEq

/-- The JSON object shape requested by find_solutions (a solutions array). -/
structure SolutionsJson where
  solutions : Option (List Solution)
deriving DecidableEq

/-- Behaviour of the generation call inside find_solutions: parsed object,
json.JSONDecodeError, or any other exception. -/
inductive SolutionResp where
  | ok (j : SolutionsJson)
  | parseError (msg : String)
  | exn (msg : String)
deriving DecidableEq

namespace SolutionAgent

/-- The generic placeholder candidate appended by the pad loop when the
service returned fewer than 3 solutions; n is len(solutions) + 1 at the
moment of the append. -/
def placeholderSolution (n : Nat) : Solution :=
  { rank := some (n : Int),
    title := some ("Alternative Solution " ++ toString n),
    description := some "Review the error context and apply appropriate fixes",
    effectiveness := some "Medium",
    complexity := some "Medium",
    time_estimate := some "Unknown",
    steps := some ["Analyze the error", "Identify root cause", "Apply fix"],
    code_example := some "",
    prerequisites := some [],
    risk_level := some "Medium" }

/-- The pad-or-truncate step of find_solutions: while fewer than 3, append a
placeholder ranked len+1; if more than 3, keep the first 3. -/
def ensureThree (sols : List Solution) : List Solution :=
  if sols.length < 3 then
    sols ++ (List.range (3 - sols.length)).map (fun i => placeholderSolution (sols.length + i + 1))
  else if sols.length > 3 then sols.take 3
  else sols

/-- Sort key x.get("rank", 999) of the final sort in find_solutions. -/
def rankKey (s : Solution) : Int := s.rank.getD 999

/-- Ascending-by-rank order used by solutions.sort(key=...); Python list.sort
is stable, which insertion sort realizes. -/
def rankLE (a b : Solution) : Prop := rankKey a ≤ rankKey b

instance : DecidableRel rankLE :=
  fun a b => inferInstanceAs (Decidable (rankKey a ≤ rankKey b))

/-- solutions.sort(key=lambda x: x.get("rank", 999)) — stable ascending. -/
def sortByRank (sols : List Solution) : List Solution :=
  List.insertionSort rankLE sols

/-- The fixed 3-item fallback returned on json.JSONDecodeError. -/
def fallbackSolutions : List Solution :=
  [{ rank := some 1, title := some "Retry Analysis",
     description := some "Try analyzing the error again with more context",
     effectiveness := some "Medium", complexity := some "Low",
     time_estimate := some "5 minutes",
     steps := some ["Click Analyze Errors again", "Check API key", "Verify log file format"],
     code_example := some "", prerequisites := some [], risk_level := some "Low" },
   { rank := some 2, title := some "Manual Review",
     description := some "Review the log file manually for errors",
     effectiveness := some "High", complexity := some "Medium",
     time_estimate := some "30 minutes",
     steps := some ["Open log file", "Search for error keywords", "Review stack traces"],
     code_example := some "", prerequisites := some [], risk_level := some "Low" },
   { rank := some 3, title := some "Contact Support",
     description := some "If issue persists, contact support team",
     effectiveness := some "High", complexity := some "Low",
     time_estimate := some "1 hour",
     steps := some ["Document the error", "Check logs", "Contact administrator"],
     code_example := some "", prerequisites := some [], risk_level := some "Low" }]

/-- The single degraded candidate returned on any non-parse exception. -/
def errorSolution (msg : String) : Solution :=
  { rank := some 1, title := some "Error in Solution Generation",
    description := some ("Error occurred: " ++ msg),
    effectiveness := some "Low", complexity := some "Low",
    time_estimate := some "Unknown",
    steps := some ["Check error message", "Retry operation"],
    code_example := some "", prerequisites := some [], risk_level := some "Low" }

/-- SolutionAgent.find_solutions with the service behaviour as an oracle.
The error_type, severity, error_details and aggregated_analysis arguments of
the source only shape the prompt sent to the service, so they are absorbed
into the oracle response. -/
def find_solutions (resp : SolutionResp) : List Solution :=
  match resp with
  | .ok j => sortByRank (ensureThree (j.solutions.getD []))
  | .parseError _ => fallbackSolutions
  | .exn msg => [errorSolution msg]

/-- effectiveness_map.get(sol.get("effectiveness", "Medium"), 2) -/
def effectivenessScore (sol : Solution) : Int :=
  match sol.effectiveness with
  | none => 2
  | some s => if s = "High" then 3 else if s = "Medium" then 2 else if s = "Low" then 1 else 2

/-- complexity_map.get(sol.get("complexity", "Medium"), 2) -/
def complexityScore (sol : Solution) : Int :=
  match sol.complexity with
  | none => 2
  | some s => if s = "Low" then 3 else if s = "Medium" then 2 else if s = "High" then 1 else 2

/-- solution_score: effectiveness weighted twice, plus complexity. -/
def solution_score (sol : Solution) : Int :=
  effectivenessScore sol * 2 + complexityScore sol

/-- Descending-by-score order of sorted(..., reverse=True); Python sorted is
stable and reverse=True does not reverse ties, which insertion sort with
this relation realizes. -/
def scoreGE (a b : Solution) : Prop := solution_score b ≤ solution_score a

instance : DecidableRel scoreGE :=
  fun a b => inferInstanceAs (Decidable (solution_score b ≤ solution_score a))

instance : IsTotal Solution scoreGE :=
  ⟨fun a b => le_total (solution_score b) (solution_score a)⟩

instance : IsTrans Solution scoreGE :=
  ⟨fun _ _ _ hab hbc => le_trans hbc hab⟩

/-- SolutionAgent.rank_solutions: stable sort descending by solution_score. -/
def rank_solutions (solutions : List Solution) : List Solution :=
  List.insertionSort scoreGE solutions

end SolutionAgent

/-! ### Orchestrator -/

/-- The dictionary returned by NotificationAgent.send_notifications (one
success slot per channel); its internals are outside the core and are
produced by the notification oracle. -/
structure NotificationResults where
  slack : Option Bool
  jira : Option Bool
  all_success : Bool
deriving DecidableEq

/-- One cause dictionary formatted by send_notifications_node. -/
structure Cause where
  title : String
  description : String
deriving DecidableEq

/-- The AgentState TypedDict threaded through the LangGraph nodes (the
api_key key is carried but never read by any node and is omitted). -/
structure AgentState where
  log_files : List LogFile
  classification_result : Option AggregationResult
  aggregated_errors : Option (List (String × AggEntry))
  solutions : Option (List Solution)
  selected_solution : Option Solution
  notification_results : Option NotificationResults
  current_step : String
  errors : List String
deriving DecidableEq

/-- The external collaborators of one orchestrator run: the generation
service behaviour at each of its three call sites, and the notification
dispatcher. -/
structure Oracles where
  classifyResp : LogFile → ClassifyResp
  analysisResp : AnalysisResp
  solutionResp : SolutionResp
  notify : String → String → List Cause → Solution → String →
    Option AggregationResult → NotificationResults

/-- The per-file classification function induced by the oracle, as called by
process_multiple_logs. -/
def classifyOfOracle (o : Oracles) : LogFile → FileClassification :=
  fun lf => ErrorClassificationAgent.classify_single_log (o.classifyResp lf) (lfContent lf) (lfName lf)

/-- Python max(items, key=lambda x: x[1].get("count", 0)): first maximal
element in iteration order; none on an empty mapping. -/
def maxByCount : List (String × AggEntry) → Option (String × AggEntry)
  | [] => none
  | x :: xs => some (xs.foldl (fun b y => if y.2.count > b.2.count then y else b) x)

/-- MultiAgentOrchestrator.classify_errors_node.  The try body is total in
the embedding (every service behaviour returns), so the except branch of the
source is unreachable and not modelled. -/
def classify_errors_node (o : Oracles) (state : AgentState) : AgentState :=
  let state := { state with current_step := "classifying_errors" }
  if state.log_files.isEmpty then
    { state with errors := state.errors ++ ["No log files provided"] }
  else
    let result := process_multiple_logs (classifyOfOracle o) o.analysisResp state.log_files
    { state with classification_result := some result,
                 aggregated_errors := some result.aggregated_errors,
                 current_step := "classification_complete" }

/-- MultiAgentOrchestrator.find_solutions_node.  The top-error selection and
severity feed only the prompt of the solution service and are absorbed into
the oracle; the guard order matches the source. -/
def find_solutions_node (o : Oracles) (state : AgentState) : AgentState :=
  let state := { state with current_step := "finding_solutions" }
  match state.classification_result with
  | none => { state with errors := state.errors ++ ["No classification result available"] }
  | some _ =>
      let aggregated_errors := state.aggregated_errors.getD []
      if aggregated_errors.isEmpty then
        { state with errors := state.errors ++ ["No errors found to generate solutions for"] }
      else
        let solutions := SolutionAgent.rank_solutions (SolutionAgent.find_solutions o.solutionResp)
        { state with solutions := some solutions, current_step := "solutions_found" }

/-- MultiAgentOrchestrator.send_notifications_node. -/
def send_notifications_node (o : Oracles) (state : AgentState) : AgentState :=
  let state := { state with current_step := "sending_notifications" }
  match state.selected_solution with
  | none =>
      { state with errors := state.errors ++ ["No solution selected for notification"],
                   current_step := "notification_skipped" }
  | some sel =>
      let aggregated_analysis :=
        match state.classification_result with
        | some cr => cr.aggregated_analysis
        | none => emptyAnalysisJson
      let aggregated_errors := state.aggregated_errors.getD []
      match maxByCount aggregated_errors with
      | some top =>
          let error_type := top.1
          let error_details := top.2
          let severity := error_details.severity
          let causes := (aggregated_analysis.key_findings.getD []).map (fun f => Cause.mk f f)
          let causes :=
            if causes.isEmpty then
              [Cause.mk error_type ("Error occurred " ++ toString error_details.count ++ " times")]
            else causes
          let log_content :=
            match state.log_files with
            | [] => ""
            | lf :: _ => pyTake (lfContent lf) 5000
          let nr := o.notify error_type severity causes sel log_content state.classification_result
          { state with notification_results := some nr, current_step := "notifications_sent" }
      | none =>
          { state with errors := state.errors ++ ["No errors to notify about"],
                       current_step := "notification_skipped" }

/-- The initial AgentState built by the entry points. -/
def initialAgentState (log_files : List LogFile) (selected_solution : Option Solution) : AgentState :=
  { log_files := log_files, classification_result := none, aggregated_errors := none,
    solutions := none, selected_solution := selected_solution, notification_results := none,
    current_step := "initialized", errors := [] }

/-- The compiled LangGraph of _build_workflow is the straight-line sequence
classify_errors -> find_solutions -> send_notifications -> END, so invoking
it is composing the three node functions in that order. -/
def workflowFinalState (o : Oracles) (log_files : List LogFile)
    (selected_solution : Option Solution) : AgentState :=
  send_notifications_node o (find_solutions_node o (classify_errors_node o
    (initialAgentState log_files selected_solution)))

/-- The dictionary returned by run_workflow. -/
structure WorkflowResult where
  classification_result : Option AggregationResult
  aggregated_errors : Option (List (String × AggEntry))
  solutions : Option (List Solution)
  selected_solution : Option Solution
  notification_results : Option NotificationResults
  current_step : String
  errors : List String
  success : Bool
deriving DecidableEq

/-- MultiAgentOrchestrator.run_workflow. -/
def run_workflow (o : Oracles) (log_files : List LogFile)
    (selected_solution : Option Solution) (send_notifications_flag : Bool) : WorkflowResult :=
  let final := workflowFinalState o log_files selected_solution
  { classification_result := final.classification_result,
    aggregated_errors := final.aggregated_errors,
    solutions := final.solutions,
    selected_solution := final.selected_solution,
    notification_results := if send_notifications_flag then final.notification_results else none,
    current_step := final.current_step,
    errors := final.errors,
    success := final.errors.length == 0 }

/-- The dictionary returned by run_classification_only. -/
structure ClassificationOnlyResult where
  classification_result : Option AggregationResult
  aggregated_errors : Option (List (String × AggEntry))
  current_step : String
  errors : List String
  success : Bool
deriving DecidableEq

/-- MultiAgentOrchestrator.run_classification_only: build the initial state
and run only the classification node. -/
def run_classification_only (o : Oracles) (log_files : List LogFile) : ClassificationOnlyResult :=
  let state := classify_errors_node o (initialAgentState log_files none)
  { classification_result := state.classification_result,
    aggregated_errors := state.aggregated_errors,
    current_step := state.current_step,
    errors := state.errors,
    success := state.errors.length == 0 }

/-! ### Aggregation lemmas -/

theorem lookupT_insertRecord_self (m : List (String × AggEntry)) (t sev : String)
    (freq : Int) (fn : String) :
    lookupT (insertRecord m t sev freq fn) t =
      some (match lookupT m t with
            | none => { count := freq, severity := sev, files := [fn] }
            | some e => { e with count := e.count + freq, files := addFile e.files fn }) := by
  induction m with
  | nil => simp [insertRecord, lookupT]
  | cons kv rest ih =>
      obtain ⟨k, e⟩ := kv
      by_cases hk : k = t
      · subst hk
        simp [insertRecord, lookupT]
      · simp [insertRecord, lookupT, hk, ih]

theorem lookupT_insertRecord_ne (m : List (String × AggEntry)) (t sev : String)
    (freq : Int) (fn : String) (t₂ : String) (h : t₂ ≠ t) :
    lookupT (insertRecord m t sev freq fn) t₂ = lookupT m t₂ := by
  induction m with
  | nil =>
      have h₂ : ¬ (t = t₂) := fun hh => h hh.symm
      simp [insertRecord, lookupT, h₂]
  | cons kv rest ih =>
      obtain ⟨k, e⟩ := kv
      by_cases hk : k = t
      · have h₃ : ¬ (t = t₂) := fun hh => h hh.symm
        simp [insertRecord, lookupT, hk, h₃]
      · by_cases hk₂ : k = t₂
        · subst hk₂
          simp [insertRecord, lookupT, hk]
        · simp [insertRecord, lookupT, hk, hk₂, ih]

theorem countSum_insertRecord (m : List (String × AggEntry)) (t sev : String)
    (freq : Int) (fn : String) :
    countSum (insertRecord m t sev freq fn) = countSum m + freq := by
  induction m with
  | nil => simp [insertRecord, countSum]
  | cons kv rest ih =>
      obtain ⟨k, e⟩ := kv
      by_cases hk : k = t
      · simp [insertRecord, hk, countSum]
        omega
      · simp [insertRecord, hk, countSum] at *
        omega

theorem aggPairs_append (xs ys : List (String × ErrorRecord)) (st : AggState) :
    aggPairs (xs ++ ys) st = aggPairs ys (aggPairs xs st) := by
  simp [aggPairs, List.foldl_append]

theorem pairsOf_append (t : String) (xs ys : List (String × ErrorRecord)) :
    pairsOf t (xs ++ ys) = pairsOf t xs ++ pairsOf t ys := by
  simp [pairsOf, List.filter_append]

theorem pairsOf_singleton (t fn : String) (r : ErrorRecord) :
    pairsOf t [(fn, r)] = if recordType r = t then [(fn, r)] else [] := by
  by_cases h : recordType r = t <;> simp [pairsOf, List.filter_cons, h]

theorem mem_addFile (fs : List String) (fn f : String) :
    f ∈ addFile fs fn ↔ f ∈ fs ∨ f = fn := by
  unfold addFile
  by_cases h : fn ∈ fs
  · simp only [if_pos h]
    constructor
    · exact Or.inl
    · rintro (hf | rfl)
      · exact hf
      · exact h
  · simp [h]

theorem nodup_addFile (fs : List String) (fn : String) (h : fs.Nodup) :
    (addFile fs fn).Nodup := by
  unfold addFile
  by_cases hm : fn ∈ fs
  · simpa [hm]
  · simp [hm, List.nodup_append, h]

/-- The invariant tying one aggregated entry to the sequence of pairs
processed so far: the count is the frequency total, the severity is that of
the first-seen contributing record, and the files are exactly the set of
contributing filenames. -/
def entryInvP (t : String) (pairs : List (String × ErrorRecord)) : Option AggEntry → Prop
  | none => pairsOf t pairs = []
  | some e =>
      e.count = freqSum t pairs ∧
      ((pairsOf t pairs).head?.map (fun p => recordSeverity p.2)) = some e.severity ∧
      e.files.Nodup ∧
      ∀ f, f ∈ e.files ↔ f ∈ contributingFiles t pairs

theorem entryInvP_eq_of_pairsOf_eq (t : String) {ps qs : List (String × ErrorRecord)}
    (h : pairsOf t ps = pairsOf t qs) (o : Option AggEntry) :
    entryInvP t ps o ↔ entryInvP t qs o := by
  cases o <;> simp [entryInvP, freqSum, contributingFiles, h]

theorem entryInv_aggPairs (pairs : List (String × ErrorRecord)) (t : String) :
    entryInvP t pairs (lookupT (aggPairs pairs initAggState).error_types t) := by
  induction pairs using List.reverseRecOn with
  | nil => simp [entryInvP, aggPairs, initAggState, lookupT, pairsOf]
  | append_singleton ps p ih =>
      obtain ⟨fn, r⟩ := p
      rw [aggPairs_append]
      have hstep : aggPairs [(fn, r)] (aggPairs ps initAggState)
          = processRecord fn (aggPairs ps initAggState) r := rfl
      rw [hstep]
      by_cases ht : recordType r = t
      · have hpair : pairsOf t (ps ++ [(fn, r)]) = pairsOf t ps ++ [(fn, r)] := by
          rw [pairsOf_append, pairsOf_singleton, if_pos ht]
        have hins : lookupT (processRecord fn (aggPairs ps initAggState) r).error_types t =
            some (match lookupT (aggPairs ps initAggState).error_types t with
                  | none => { count := recordFreq r, severity := recordSeverity r, files := [fn] }
                  | some e => { e with count := e.count + recordFreq r, files := addFile e.files fn }) := by
          have hrw : (processRecord fn (aggPairs ps initAggState) r).error_types
              = insertRecord (aggPairs ps initAggState).error_types (recordType r)
                  (recordSeverity r) (recordFreq r) fn := rfl
          rw [hrw, ht]
          exact lookupT_insertRecord_self _ _ _ _ _
        rw [hins]
        cases hm : lookupT (aggPairs ps initAggState).error_types t with
        | none =>
            have hps : pairsOf t ps = [] := by
              have := ih
              rw [hm] at this
              exact this
            refine ⟨?_, ?_, ?_, ?_⟩
            · simp [freqSum, hpair, hps]
            · simp [hpair, hps]
            · simp
            · intro f
              simp [contributingFiles, hpair, hps]
        | some e =>
            have hinv : entryInvP t ps (some e) := by
              have := ih
              rw [hm] at this
              exact this
            obtain ⟨hc, hs, hn, hmem⟩ := hinv
            obtain ⟨q, qs, hq⟩ : ∃ q qs, pairsOf t ps = q :: qs := by
              cases hqq : pairsOf t ps with
              | nil => rw [hqq] at hs; simp at hs
              | cons q qs => exact ⟨q, qs, rfl⟩
            have hfs : freqSum t (ps ++ [(fn, r)]) = freqSum t ps + recordFreq r := by
              rw [freqSum, hpair]
              simp [freqSum]
            have hcf : contributingFiles t (ps ++ [(fn, r)])
                = contributingFiles t ps ++ [fn] := by
              rw [contributingFiles, hpair]
              simp [contributingFiles]
            refine ⟨?_, ?_, nodup_addFile _ _ hn, ?_⟩
            · simp [hfs, hc]
            · rw [hq] at hs
              simp only [List.head?_cons, Option.map_some] at hs
              rw [hpair, hq]
              simpa using hs
            · intro f
              rw [mem_addFile, hcf]
              simp only [List.mem_append, List.mem_singleton]
              constructor
              · rintro (hf | rfl)
                · exact Or.inl ((hmem f).mp hf)
                · exact Or.inr rfl
              · rintro (hf | rfl)
                · exact Or.inl ((hmem f).mpr hf)
                · exact Or.inr rfl
      · have hpair : pairsOf t (ps ++ [(fn, r)]) = pairsOf t ps := by
          rw [pairsOf_append, pairsOf_singleton, if_neg ht]
          simp
        have hne : lookupT (processRecord fn (aggPairs ps initAggState) r).error_types t =
            lookupT (aggPairs ps initAggState).error_types t :=
          lookupT_insertRecord_ne _ _ _ _ _ _ (fun hh => ht hh.symm)
        rw [hne, entryInvP_eq_of_pairsOf_eq t hpair]
        exact ih

theorem aggPairs_map_file (fn : String) (rs : List ErrorRecord) (st : AggState) :
    aggPairs (rs.map (fun r => (fn, r))) st = rs.foldl (fun s r => processRecord fn s r) st := by
  simp [aggPairs, List.foldl_map]

theorem processLogs_state (classifyOf : LogFile → FileClassification) :
    ∀ (log_files : List LogFile) (acc : List FileClassification) (tot : Int) (st : AggState),
      (log_files.foldl
        (fun acc lf =>
          (acc.1 ++ [classifyOf lf],
           acc.2.1 + (classifyOf lf).error_count.getD 0,
           ((classifyOf lf).errors.getD []).foldl (fun s r => processRecord (lfName lf) s r) acc.2.2))
        (acc, tot, st)).2.2
      = aggPairs (recPairs classifyOf log_files) st := by
  intro log_files
  induction log_files with
  | nil =>
      intro acc tot st
      simp [recPairs, aggPairs]
  | cons lf rest ih =>
      intro acc tot st
      rw [List.foldl_cons, ih]
      rw [show recPairs classifyOf (lf :: rest)
          = ((classifyOf lf).errors.getD []).map (fun r => (lfName lf, r)) ++ recPairs classifyOf rest from rfl]
      rw [aggPairs_append, aggPairs_map_file]

theorem process_multiple_logs_state (classifyOf : LogFile → FileClassification)
    (aresp : AnalysisResp) (log_files : List LogFile) :
    (process_multiple_logs classifyOf aresp log_files).aggregated_errors
      = (aggPairs (recPairs classifyOf log_files) initAggState).error_types := by
  have h := processLogs_state classifyOf log_files [] 0 initAggState
  exact congrArg AggState.error_types h

theorem countSum_aggPairs (pairs : List (String × ErrorRecord)) :
    ∀ st : AggState,
      countSum (aggPairs pairs st).error_types = countSum st.error_types + freqSumAll pairs := by
  induction pairs with
  | nil =>
      intro st
      simp [aggPairs, freqSumAll]
  | cons p ps ih =>
      intro st
      rw [show aggPairs (p :: ps) st = aggPairs ps (processRecord p.1 st p.2) from rfl, ih]
      simp [processRecord, countSum_insertRecord, freqSumAll]
      omega

/-! ### Claim C1 and C6: aggregation invariants -/

/-- Claim C1: for every sequence of per-file classification results fed to
process_multiple_logs, each aggregated entry's count equals the sum of the
frequency fields (default 1 when absent) of all error records carrying that
error type across all files, the entry's files field is the duplicate-free
set of filenames whose classification contained that error type, and
consequently the sum of count over all entries equals the sum of frequency
over every record of every classification. -/
theorem process_multiple_logs_aggregation_invariant
    (classifyOf : LogFile → FileClassification) (aresp : AnalysisResp)
    (log_files : List LogFile) (t : String) (e : AggEntry)
    (h : lookupT (process_multiple_logs classifyOf aresp log_files).aggregated_errors t = some e) :
    e.count = freqSum t (recPairs classifyOf log_files) ∧
    e.files.Nodup ∧
    (∀ f, f ∈ e.files ↔ f ∈ contributingFiles t (recPairs classifyOf log_files)) ∧
    countSum (process_multiple_logs classifyOf aresp log_files).aggregated_errors
      = freqSumAll (recPairs classifyOf log_files) := by
  rw [process_multiple_logs_state] at h ⊢
  have hinv := entryInv_aggPairs (recPairs classifyOf log_files) t
  rw [h] at hinv
  obtain ⟨hc, hs, hn, hmem⟩ := hinv
  refine ⟨hc, hn, hmem, ?_⟩
  rw [countSum_aggPairs]
  simp [initAggState, countSum]

/-- Claim C6: the severity stored in an aggregated entry is the severity of
the first error record encountered with that error type (in file input
order, then record order within a file); records seen later never change
it. -/
theorem aggregated_severity_first_seen
    (classifyOf : LogFile → FileClassification) (aresp : AnalysisResp)
    (log_files : List LogFile) (t : String) (e : AggEntry)
    (h : lookupT (process_multiple_logs classifyOf aresp log_files).aggregated_errors t = some e) :
    ((pairsOf t (recPairs classifyOf log_files)).head?.map (fun p => recordSeverity p.2))
      = some e.severity := by
  rw [process_multiple_logs_state] at h
  have hinv := entryInv_aggPairs (recPairs classifyOf log_files) t
  rw [h] at hinv
  exact hinv.2.1

/-- Fixture: record of type E, High severity, frequency 2. -/
def wRecA : ErrorRecord :=
  { error_type := some "E"
    severity := some "High"
    frequency := some 2
    first_occurrence := none
    last_occurrence := none
    message := none }

/-- Fixture: record of type E, Low severity, frequency 3. -/
def wRecB1 : ErrorRecord :=
  { wRecA with severity := some "Low", frequency := some 3 }

/-- Fixture: record of type F, High severity, frequency absent. -/
def wRecB2 : ErrorRecord :=
  { wRecA with error_type := some "F", frequency := none }

/-- Fixture: per-file classification function used by the witnesses. -/
def wClassify : LogFile → FileClassification := fun lf =>
  if lfName lf = "a.log" then
    { filename := "a.log"
      error_count := some 1
      errors := some [wRecA]
      categories := none
      summary := none
      status := "analyzed" }
  else
    { filename := "b.log"
      error_count := some 2
      errors := some [wRecB1, wRecB2]
      categories := none
      summary := none
      status := "analyzed" }

/-- Fixture: the two witness log files. -/
def wLogA : LogFile := { filename := some "a.log", content := some "error one" }

/-- Fixture: second witness log file. -/
def wLogB : LogFile := { filename := some "b.log", content := some "error two" }

/-- Fixture: the aggregated entry produced for type E from the fixtures. -/
def wEntryE : AggEntry := { count := 5, severity := "High", files := ["a.log", "b.log"] }

/-- Witness for C1 at a concrete two-file run. -/
theorem process_multiple_logs_aggregation_invariant_witness :
    wEntryE.count = freqSum "E" (recPairs wClassify [wLogA, wLogB]) ∧
    wEntryE.files.Nodup ∧
    (∀ f, f ∈ wEntryE.files ↔ f ∈ contributingFiles "E" (recPairs wClassify [wLogA, wLogB])) ∧
    countSum (process_multiple_logs wClassify (.fail "m") [wLogA, wLogB]).aggregated_errors
      = freqSumAll (recPairs wClassify [wLogA, wLogB]) :=
  process_multiple_logs_aggregation_invariant wClassify (.fail "m") [wLogA, wLogB] "E" wEntryE
    (by decide)

/-- Witness for C6: the second file contributes a Low-severity record of the
same type, yet the stored severity is the first-seen High. -/
theorem aggregated_severity_first_seen_witness :
    ((pairsOf "E" (recPairs wClassify [wLogA, wLogB])).head?.map (fun p => recordSeverity p.2))
      = some wEntryE.severity :=
  aggregated_severity_first_seen wClassify (.fail "m") [wLogA, wLogB] "E" wEntryE (by decide)

/-! ### Claim C3: severity coercion -/

/-- Fixture: a record whose severity is present but not one of the four enum
values. -/
def bogusRecord : ErrorRecord :=
  { error_type := some "E"
    severity := some "Bogus"
    frequency := some 1
    first_occurrence := none
    last_occurrence := none
    message := none }

/-- Fixture: a record with no severity field at all. -/
def noSeverityRecord : ErrorRecord :=
  { bogusRecord with severity := none }

/-- Fixture: classification function returning the single bogus record. -/
def bogusClassify : LogFile → FileClassification := fun _ =>
  { filename := "a.log"
    error_count := some 1
    errors := some [bogusRecord]
    categories := none
    summary := none
    status := "analyzed" }

/-- Counterexample to C3 as stated: a record with the out-of-enum severity
Bogus is aggregated with its severity stored verbatim (not coerced to
Medium) and contributes to no severity_distribution bucket at all. -/
theorem severity_coercion_counterexample :
    lookupT (process_multiple_logs bogusClassify (.fail "m") [wLogA]).aggregated_errors "E"
      = some { count := 1, severity := "Bogus", files := ["a.log"] } ∧
    (process_multiple_logs bogusClassify (.fail "m") [wLogA]).severity_distribution
      = { critical := 0, high := 0, medium := 0, low := 0 } ∧
    "Bogus" ≠ "Medium" := by
  refine ⟨by decide, by decide, by decide⟩

/-- Claim C3 amended: a record with an absent severity field is processed
exactly as if its severity were Medium (stored severity and histogram
contribution included); a record whose severity is present but outside the
four enum values keeps that value verbatim as the first-seen entry severity
and contributes to no severity_distribution bucket. -/
theorem severity_default_spec (st : AggState) (fn : String) (r : ErrorRecord) (s : String) :
    (r.severity = none →
      processRecord fn st r = processRecord fn st { r with severity := some "Medium" }) ∧
    (r.severity = some s → s ∉ (["Critical", "High", "Medium", "Low"] : List String) →
      (processRecord fn st r).severity_counts = st.severity_counts ∧
      (lookupT st.error_types (recordType r) = none →
        lookupT (processRecord fn st r).error_types (recordType r)
          = some { count := recordFreq r, severity := s, files := [fn] })) := by
  constructor
  · intro hnone
    simp [processRecord, recordType, recordSeverity, recordFreq, hnone]
  · intro hsome hnotin
    have hs : recordSeverity r = s := by simp [recordSeverity, hsome]
    have h₁ : ¬ (s = "Critical") := fun hh => hnotin (by simp [hh])
    have h₂ : ¬ (s = "High") := fun hh => hnotin (by simp [hh])
    have h₃ : ¬ (s = "Medium") := fun hh => hnotin (by simp [hh])
    have h₄ : ¬ (s = "Low") := fun hh => hnotin (by simp [hh])
    constructor
    · simp [processRecord, bumpSeverity, hs, h₁, h₂, h₃, h₄]
    · intro hlook
      have hins := lookupT_insertRecord_self st.error_types (recordType r)
        (recordSeverity r) (recordFreq r) fn
      rw [hlook] at hins
      simpa [processRecord, hs] using hins

/-- Witness for C3 amended, at the concrete fixtures. -/
theorem severity_default_spec_witness :
    (processRecord "a.log" initAggState noSeverityRecord
      = processRecord "a.log" initAggState { noSeverityRecord with severity := some "Medium" }) ∧
    ((processRecord "a.log" initAggState bogusRecord).severity_counts
        = initAggState.severity_counts ∧
      (lookupT (processRecord "a.log" initAggState bogusRecord).error_types (recordType bogusRecord)
        = some { count := recordFreq bogusRecord, severity := "Bogus", files := ["a.log"] })) :=
  ⟨(severity_default_spec initAggState "a.log" noSeverityRecord "x").1 rfl,
   ((severity_default_spec initAggState "a.log" bogusRecord "Bogus").2 rfl (by decide)).1,
   ((severity_default_spec initAggState "a.log" bogusRecord "Bogus").2 rfl (by decide)).2
     (by decide)⟩

/-! ### Claim C2: solution cardinality and ranks on the successful path -/

theorem placeholder_rank (n : Nat) : (SolutionAgent.placeholderSolution n).rank = some (n : Int) :=
  rfl

theorem ensureThree_length (sols : List Solution) :
    (SolutionAgent.ensureThree sols).length = 3 := by
  unfold SolutionAgent.ensureThree
  by_cases h₁ : sols.length < 3
  · simp [h₁]
    omega
  · by_cases h₂ : sols.length > 3
    · simp [h₁, h₂]
      omega
    · simp [h₁, h₂]
      omega

theorem ensureThree_map_rank (sols : List Solution)
    (h : ∀ i (hi : i < sols.length), i < 3 → (sols.get ⟨i, hi⟩).rank = some ((i : Int) + 1)) :
    (SolutionAgent.ensureThree sols).map (fun s => s.rank)
      = [some 1, some 2, some 3] := by
  match sols with
  | [] =>
      simp [SolutionAgent.ensureThree, List.range_succ, placeholder_rank]
  | [a] =>
      have ha := h 0 (by simp) (by omega)
      simp at ha
      simp [SolutionAgent.ensureThree, List.range_succ, placeholder_rank, ha]
  | [a, b] =>
      have ha := h 0 (by simp) (by omega)
      have hb := h 1 (by simp) (by omega)
      simp at ha hb
      simp [SolutionAgent.ensureThree, List.range_succ, placeholder_rank, ha, hb]
  | a :: b :: c :: rest =>
      have ha := h 0 (by simp) (by omega)
      have hb := h 1 (by simp) (by omega)
      have hc := h 2 (by simp) (by omega)
      simp at ha hb hc
      have hL : (a :: b :: c :: rest).length = rest.length + 3 := by
        simp [List.length_cons]
      have hlen : ¬ ((a :: b :: c :: rest).length < 3) := by
        omega
      unfold SolutionAgent.ensureThree
      by_cases h₂ : (a :: b :: c :: rest).length > 3
      · simp only [if_neg hlen, if_pos h₂]
        simp [List.take_succ_cons, ha, hb, hc]
      · have hrest : rest = [] := by
          cases rest with
          | nil => rfl
          | cons x xs =>
              exfalso
              apply h₂
              have hx : (x :: xs).length = xs.length + 1 := by
                simp [List.length_cons]
              omega
        subst hrest
        simp only [if_neg hlen, if_neg h₂]
        simp [ha, hb, hc]

/-- Fixture: a candidate carrying only a rank field. -/
def rankOnlySolution (n : Int) : Solution :=
  { rank := some n
    title := none
    description := none
    effectiveness := none
    complexity := none
    time_estimate := none
    steps := none
    code_example := none
    prerequisites := none
    risk_level := none }

/-- Counterexample to C2 as stated: a parsed response with three candidates
ranked 6, 4, 5 passes pad/truncate unchanged, so the result carries rank 4,
which is outside the set 1..3. -/
theorem find_solutions_rank_subset_counterexample :
    (SolutionAgent.find_solutions (.ok
        { solutions := some [rankOnlySolution 6, rankOnlySolution 4, rankOnlySolution 5] })).map
        (fun s => s.rank)
      = [some 4, some 5, some 6] ∧
    ¬ ((4 : Int) = 1 ∨ (4 : Int) = 2 ∨ (4 : Int) = 3) := by
  refine ⟨by decide, by decide⟩

/-- Claim C2 amended: on the successful path find_solutions always returns
exactly 3 candidates; the ranks are a permutation of 1..3 provided every
candidate the generator supplied (among the first three kept) carries the
requested rank, namely its 1-based position — the pad/truncate step does not
rewrite the ranks of generator-supplied candidates. -/
theorem find_solutions_pad_truncate_spec (j : SolutionsJson) :
    (SolutionAgent.find_solutions (.ok j)).length = 3 ∧
    ((∀ i (hi : i < (j.solutions.getD []).length), i < 3 →
        ((j.solutions.getD []).get ⟨i, hi⟩).rank = some ((i : Int) + 1)) →
      ((SolutionAgent.find_solutions (.ok j)).map (fun s => s.rank)).Perm
        [some 1, some 2, some 3]) := by
  constructor
  · have hperm := List.perm_insertionSort SolutionAgent.rankLE
      (SolutionAgent.ensureThree (j.solutions.getD []))
    calc (SolutionAgent.find_solutions (.ok j)).length
        = (SolutionAgent.ensureThree (j.solutions.getD [])).length := hperm.length_eq
      _ = 3 := ensureThree_length _
  · intro h
    have hperm := List.perm_insertionSort SolutionAgent.rankLE
      (SolutionAgent.ensureThree (j.solutions.getD []))
    have hmap := hperm.map (fun s : Solution => s.rank)
    rw [ensureThree_map_rank _ h] at hmap
    simpa [SolutionAgent.find_solutions, SolutionAgent.sortByRank] using hmap

/-- Witness for C2 at the empty parsed candidate list. -/
theorem find_solutions_pad_truncate_spec_witness :
    (SolutionAgent.find_solutions (.ok { solutions := none })).length = 3 ∧
    ((SolutionAgent.find_solutions (.ok { solutions := none })).map (fun s => s.rank)).Perm
      [some 1, some 2, some 3] :=
  ⟨(find_solutions_pad_truncate_spec { solutions := none }).1,
   (find_solutions_pad_truncate_spec { solutions := none }).2
     (fun i hi _ => absurd hi (by simp at hi ⊢))⟩

/-! ### Claim C5: the Solution Ranker -/

/-- Claim C5: rank_solutions stably sorts candidates descending by
score = 2 x effectiveness weight + complexity weight (High/Medium/Low
effectiveness scoring 3/2/1, Low/Medium/High complexity scoring 3/2/1,
missing or unknown values scoring 2, all per the definitions of
solution_score): the output is a permutation of the input, it is sorted
under the descending-score relation, and rank_solutions is idempotent. -/
theorem rank_solutions_spec (l : List Solution) :
    SolutionAgent.rank_solutions (SolutionAgent.rank_solutions l)
      = SolutionAgent.rank_solutions l ∧
    (SolutionAgent.rank_solutions l).Perm l ∧
    List.Sorted SolutionAgent.scoreGE (SolutionAgent.rank_solutions l) := by
  have hsorted : List.Sorted SolutionAgent.scoreGE (SolutionAgent.rank_solutions l) :=
    List.sorted_insertionSort SolutionAgent.scoreGE l
  exact ⟨hsorted.insertionSort_eq, List.perm_insertionSort SolutionAgent.scoreGE l, hsorted⟩

/-- Witness for C5 at a concrete two-candidate list: the High-effectiveness
candidate overtakes the earlier Medium one, and resorting changes nothing. -/
theorem rank_solutions_spec_witness :
    SolutionAgent.rank_solutions (SolutionAgent.rank_solutions
        [rankOnlySolution 1, { rankOnlySolution 2 with effectiveness := some "High" }])
      = SolutionAgent.rank_solutions
        [rankOnlySolution 1, { rankOnlySolution 2 with effectiveness := some "High" }] ∧
    (SolutionAgent.rank_solutions
        [rankOnlySolution 1, { rankOnlySolution 2 with effectiveness := some "High" }]).Perm
      [rankOnlySolution 1, { rankOnlySolution 2 with effectiveness := some "High" }] ∧
    List.Sorted SolutionAgent.scoreGE (SolutionAgent.rank_solutions
        [rankOnlySolution 1, { rankOnlySolution 2 with effectiveness := some "High" }]) :=
  rank_solutions_spec [rankOnlySolution 1, { rankOnlySolution 2 with effectiveness := some "High" }]

/-! ### Claim C4: classify_single_log totality and the parse-error shape -/

/-- Claim C4: classify_single_log never raises: every service behaviour is
mapped to a FileClassification carrying one of the four statuses; and when
the service returns unparseable text while error lines were extracted, the
result has status parse_error, error_count equal to the number of extracted
lines, and exactly one Parse Error record at Medium severity. -/
theorem classify_single_log_parse_error_spec (resp : ClassifyResp)
    (content filename msg : String)
    (hne : ErrorClassificationAgent.extract_error_lines content ≠ []) :
    (ErrorClassificationAgent.classify_single_log resp content filename).status ∈
      (["no_errors", "analyzed", "parse_error", "error"] : List String) ∧
    (ErrorClassificationAgent.classify_single_log (.parseError msg) content filename).status
      = "parse_error" ∧
    (ErrorClassificationAgent.classify_single_log (.parseError msg) content filename).error_count
      = some ((ErrorClassificationAgent.extract_error_lines content).length : Int) ∧
    (ErrorClassificationAgent.classify_single_log (.parseError msg) content filename).errors
      = some [{ error_type := some "Parse Error", severity := some "Medium", frequency := none,
                first_occurrence := none, last_occurrence := none, message := some msg }] := by
  cases hl : ErrorClassificationAgent.extract_error_lines content with
  | nil => exact absurd hl hne
  | cons x xs =>
      refine ⟨?_, ?_, ?_, ?_⟩
      · cases resp <;>
          simp [ErrorClassificationAgent.classify_single_log,
                ErrorClassificationAgent.classify_single_logT, hl]
      · simp [ErrorClassificationAgent.classify_single_log,
              ErrorClassificationAgent.classify_single_logT, hl]
      · simp [ErrorClassificationAgent.classify_single_log,
              ErrorClassificationAgent.classify_single_logT, hl]
      · simp [ErrorClassificationAgent.classify_single_log,
              ErrorClassificationAgent.classify_single_logT, hl]

/-- Witness for C4 at a one-line log and a concrete parse failure. -/
theorem classify_single_log_parse_error_spec_witness :
    (ErrorClassificationAgent.classify_single_log (.parseError "bad") "error: boom" "w.log").status ∈
      (["no_errors", "analyzed", "parse_error", "error"] : List String) ∧
    (ErrorClassificationAgent.classify_single_log (.parseError "bad") "error: boom" "w.log").status
      = "parse_error" ∧
    (ErrorClassificationAgent.classify_single_log (.parseError "bad") "error: boom" "w.log").error_count
      = some ((ErrorClassificationAgent.extract_error_lines "error: boom").length : Int) ∧
    (ErrorClassificationAgent.classify_single_log (.parseError "bad") "error: boom" "w.log").errors
      = some [{ error_type := some "Parse Error", severity := some "Medium", frequency := none,
                first_occurrence := none, last_occurrence := none, message := some "bad" }] :=
  classify_single_log_parse_error_spec (.parseError "bad") "error: boom" "w.log" "bad" (by decide)

/-! ### Claim C8: no_errors iff the extractor returned nothing -/

/-- Claim C8: the classification status is no_errors exactly when the
extractor returned an empty sequence for the file content, and in that case
no generation call is made. -/
theorem classify_no_errors_iff_spec (resp : ClassifyResp) (content filename : String) :
    ((ErrorClassificationAgent.classify_single_log resp content filename).status = "no_errors"
      ↔ ErrorClassificationAgent.extract_error_lines content = []) ∧
    (ErrorClassificationAgent.extract_error_lines content = [] →
      (ErrorClassificationAgent.classify_single_logT resp content filename).2 = 0) := by
  cases hl : ErrorClassificationAgent.extract_error_lines content with
  | nil =>
      constructor
      · simp [ErrorClassificationAgent.classify_single_log,
              ErrorClassificationAgent.classify_single_logT, hl]
      · intro
        simp [ErrorClassificationAgent.classify_single_logT, hl]
  | cons x xs =>
      constructor
      · cases resp <;>
          simp [ErrorClassificationAgent.classify_single_log,
                ErrorClassificationAgent.classify_single_logT, hl]
      · intro habs
        exact absurd habs (List.cons_ne_nil x xs)

/-- Witness for C8 at a content with no keyword lines. -/
theorem classify_no_errors_iff_spec_witness :
    ((ErrorClassificationAgent.classify_single_log (.exn "x") "all good" "w.log").status
      = "no_errors" ↔ ErrorClassificationAgent.extract_error_lines "all good" = []) ∧
    (ErrorClassificationAgent.classify_single_logT (.exn "x") "all good" "w.log").2 = 0 :=
  ⟨(classify_no_errors_iff_spec (.exn "x") "all good" "w.log").1,
   (classify_no_errors_iff_spec (.exn "x") "all good" "w.log").2 (by decide)⟩

/-! ### Claim C7: the extractor bounds and keyword guarantee -/

theorem lastCap_length {α : Type} (l : List α) (cap : Nat) :
    (if l.length > cap then l.drop (l.length - cap) else l).length ≤ cap := by
  by_cases h : l.length > cap
  · rw [if_pos h, List.length_drop]
    omega
  · rw [if_neg h]
    omega

theorem lastCap_mem {α : Type} (l : List α) (cap : Nat) (x : α)
    (hx : x ∈ (if l.length > cap then l.drop (l.length - cap) else l)) : x ∈ l := by
  by_cases h : l.length > cap
  · rw [if_pos h] at hx
    exact List.drop_subset _ _ hx
  · rwa [if_neg h] at hx

theorem lastCap_nil {α : Type} (cap : Nat) :
    (if ([] : List α).length > cap then
        ([] : List α).drop (([] : List α).length - cap)
      else ([] : List α)) = [] := by
  simp

/-- Claim C7: both extractor variants are pure functions of the input text;
the multi-file variant returns at most 100 lines and the single-file variant
at most 50, every returned line contains (in lowercase) a keyword of the
respective fixed set, and an input with no matching line yields the empty
sequence. -/
theorem extract_error_lines_spec (content : String) :
    (ErrorClassificationAgent.extract_error_lines content).length ≤ 100 ∧
    ((ErrorClassificationAgent.extract_error_lines content).all
      (fun line => ErrorClassificationAgent.error_keywords.any
        (fun keyword => strContainsSub (pyLower line) keyword)) = true) ∧
    ((pyLinesOf content).all
        (fun line => !(ErrorClassificationAgent.error_keywords.any
          (fun keyword => strContainsSub (pyLower line) keyword))) = true →
      ErrorClassificationAgent.extract_error_lines content = []) ∧
    (ErrorAnalyzer.extract_error_lines content).length ≤ 50 ∧
    ((ErrorAnalyzer.extract_error_lines content).all
      (fun line => ErrorAnalyzer.error_keywords.any
        (fun keyword => strContainsSub (pyLower line) keyword)) = true) ∧
    ((pyLinesOf content).all
        (fun line => !(ErrorAnalyzer.error_keywords.any
          (fun keyword => strContainsSub (pyLower line) keyword))) = true →
      ErrorAnalyzer.extract_error_lines content = []) := by
  refine ⟨?_, ?_, ?_, ?_, ?_, ?_⟩
  · exact lastCap_length
      ((pyLinesOf content).filter
        (fun line => ErrorClassificationAgent.error_keywords.any
          (fun keyword => strContainsSub (pyLower line) keyword))) 100
  · rw [List.all_eq_true]
    intro x hx
    have hx₂ := lastCap_mem
      ((pyLinesOf content).filter
        (fun line => ErrorClassificationAgent.error_keywords.any
          (fun keyword => strContainsSub (pyLower line) keyword))) 100 x hx
    rw [List.mem_filter] at hx₂
    exact hx₂.2
  · intro hall
    have hfil : (pyLinesOf content).filter
        (fun line => ErrorClassificationAgent.error_keywords.any
          (fun keyword => strContainsSub (pyLower line) keyword)) = [] := by
      rw [List.filter_eq_nil_iff]
      intro a ha
      have h₂ := List.all_eq_true.mp hall a ha
      simpa using h₂
    rw [show ErrorClassificationAgent.extract_error_lines content
        = (if ((pyLinesOf content).filter
            (fun line => ErrorClassificationAgent.error_keywords.any
              (fun keyword => strContainsSub (pyLower line) keyword))).length > 100 then
            ((pyLinesOf content).filter
              (fun line => ErrorClassificationAgent.error_keywords.any
                (fun keyword => strContainsSub (pyLower line) keyword))).drop
              (((pyLinesOf content).filter
                (fun line => ErrorClassificationAgent.error_keywords.any
                  (fun keyword => strContainsSub (pyLower line) keyword))).length - 100)
          else
            (pyLinesOf content).filter
              (fun line => ErrorClassificationAgent.error_keywords.any
                (fun keyword => strContainsSub (pyLower line) keyword))) from rfl, hfil]
    simp
  · exact lastCap_length
      ((pyLinesOf content).filter
        (fun line => ErrorAnalyzer.error_keywords.any
          (fun keyword => strContainsSub (pyLower line) keyword))) 50
  · rw [List.all_eq_true]
    intro x hx
    have hx₂ := lastCap_mem
      ((pyLinesOf content).filter
        (fun line => ErrorAnalyzer.error_keywords.any
          (fun keyword => strContainsSub (pyLower line) keyword))) 50 x hx
    rw [List.mem_filter] at hx₂
    exact hx₂.2
  · intro hall
    have hfil : (pyLinesOf content).filter
        (fun line => ErrorAnalyzer.error_keywords.any
          (fun keyword => strContainsSub (pyLower line) keyword)) = [] := by
      rw [List.filter_eq_nil_iff]
      intro a ha
      have h₂ := List.all_eq_true.mp hall a ha
      simpa using h₂
    rw [show ErrorAnalyzer.extract_error_lines content
        = (if ((pyLinesOf content).filter
            (fun line => ErrorAnalyzer.error_keywords.any
              (fun keyword => strContainsSub (pyLower line) keyword))).length > 50 then
            ((pyLinesOf content).filter
              (fun line => ErrorAnalyzer.error_keywords.any
                (fun keyword => strContainsSub (pyLower line) keyword))).drop
              (((pyLinesOf content).filter
                (fun line => ErrorAnalyzer.error_keywords.any
                  (fun keyword => strContainsSub (pyLower line) keyword))).length - 50)
          else
            (pyLinesOf content).filter
              (fun line => ErrorAnalyzer.error_keywords.any
                (fun keyword => strContainsSub (pyLower line) keyword))) from rfl, hfil]
    simp

/-- Witness for C7 at a content with no keyword lines. -/
theorem extract_error_lines_spec_witness :
    (ErrorClassificationAgent.extract_error_lines "all good").length ≤ 100 ∧
    ErrorClassificationAgent.extract_error_lines "all good" = [] ∧
    (ErrorAnalyzer.extract_error_lines "all good").length ≤ 50 ∧
    ErrorAnalyzer.extract_error_lines "all good" = [] :=
  ⟨(extract_error_lines_spec "all good").1,
   (extract_error_lines_spec "all good").2.2.1 (by decide),
   (extract_error_lines_spec "all good").2.2.2.1,
   (extract_error_lines_spec "all good").2.2.2.2.2 (by decide)⟩

/-! ### Claim C9: classification-only entry point on an empty input -/

/-- Claim C9: run_classification_only on an empty log_files sequence records
the error "No log files provided", reports success = false, and leaves
current_step at classifying_errors, the marker set on entry to the failed
stage (the initial failed marker: the stage never reaches its completion or
failure steps). -/
theorem run_classification_only_empty_spec (o : Oracles) :
    (run_classification_only o []).errors = ["No log files provided"] ∧
    (run_classification_only o []).success = false ∧
    (run_classification_only o []).current_step = "classifying_errors" :=
  ⟨rfl, rfl, rfl⟩

/-- Fixture: a parsed classification JSON object with one record. -/
def wClassJson : ClassificationJson :=
  { error_count := some 1
    errors := some [wRecA]
    categories := none
    summary := none }

/-- Fixture: a concrete oracle bundle. -/
def wOracle : Oracles :=
  { classifyResp := fun _ => .ok wClassJson
    analysisResp := .fail "m"
    solutionResp := .parseError "p"
    notify := fun _ _ _ _ _ _ => { slack := some true, jira := none, all_success := false } }

/-- Witness for C9 at the concrete oracle. -/
theorem run_classification_only_empty_spec_witness :
    (run_classification_only wOracle []).errors = ["No log files provided"] ∧
    (run_classification_only wOracle []).success = false ∧
    (run_classification_only wOracle []).current_step = "classifying_errors" :=
  run_classification_only_empty_spec wOracle

/-! ### Claim C10: the notification stage always runs; the flag only hides
its results from the returned dictionary -/

theorem ne_nil_isEmpty_false {α : Type} (l : List α) (h : l ≠ []) : l.isEmpty = false := by
  cases l with
  | nil => exact absurd rfl h
  | cons a as => rfl

theorem maxByCount_isSome (l : List (String × AggEntry)) (h : l ≠ []) :
    (maxByCount l).isSome = true := by
  cases l with
  | nil => exact absurd rfl h
  | cons x xs => rfl

theorem send_notifications_node_step (o : Oracles) (st : AgentState) :
    (send_notifications_node o st).current_step = "notifications_sent" ∨
    (send_notifications_node o st).current_step = "notification_skipped" := by
  unfold send_notifications_node
  cases hsel : st.selected_solution with
  | none => right; rfl
  | some sel =>
      cases hM : maxByCount (st.aggregated_errors.getD []) with
      | some top =>
          left
          simp [hM]
      | none =>
          right
          simp [hM]

/-- Claim C10: run_workflow executes the notification stage on every run,
regardless of the send_notifications flag (the final step is always one of
the stage-3 markers); the flag only controls whether notification_results in
the returned dictionary is null.  In particular, with a selected solution
supplied and the flag false, notifications are still dispatched (the final
internal state holds dispatch results and the notifications_sent step) while
the returned dictionary carries notification_results = none. -/
theorem run_workflow_notification_stage_spec (o : Oracles) (log_files : List LogFile)
    (selOpt : Option Solution) (flag : Bool) (sel : Solution)
    (hf : log_files ≠ [])
    (hagg : (process_multiple_logs (classifyOfOracle o) o.analysisResp log_files).aggregated_errors
      ≠ []) :
    ((run_workflow o log_files selOpt flag).current_step = "notifications_sent" ∨
     (run_workflow o log_files selOpt flag).current_step = "notification_skipped") ∧
    (flag = false → (run_workflow o log_files selOpt flag).notification_results = none) ∧
    (workflowFinalState o log_files (some sel)).notification_results.isSome = true ∧
    (workflowFinalState o log_files (some sel)).current_step = "notifications_sent" ∧
    (run_workflow o log_files (some sel) false).notification_results = none := by
  have hfe : log_files.isEmpty = false := ne_nil_isEmpty_false _ hf
  have h1 : classify_errors_node o (initialAgentState log_files (some sel))
      = { log_files := log_files
          classification_result :=
            some (process_multiple_logs (classifyOfOracle o) o.analysisResp log_files)
          aggregated_errors :=
            some (process_multiple_logs (classifyOfOracle o) o.analysisResp log_files).aggregated_errors
          solutions := none
          selected_solution := some sel
          notification_results := none
          current_step := "classification_complete"
          errors := [] } := by
    simp [classify_errors_node, initialAgentState, hfe]
  have hAggE : (process_multiple_logs (classifyOfOracle o) o.analysisResp
      log_files).aggregated_errors.isEmpty = false := ne_nil_isEmpty_false _ hagg
  have h2 : find_solutions_node o (classify_errors_node o (initialAgentState log_files (some sel)))
      = { log_files := log_files
          classification_result :=
            some (process_multiple_logs (classifyOfOracle o) o.analysisResp log_files)
          aggregated_errors :=
            some (process_multiple_logs (classifyOfOracle o) o.analysisResp log_files).aggregated_errors
          solutions := some (SolutionAgent.rank_solutions
            (SolutionAgent.find_solutions o.solutionResp))
          selected_solution := some sel
          notification_results := none
          current_step := "solutions_found"
          errors := [] } := by
    rw [h1]
    simp [find_solutions_node, hAggE]
  obtain ⟨top, htop⟩ : ∃ top, maxByCount (process_multiple_logs (classifyOfOracle o)
      o.analysisResp log_files).aggregated_errors = some top :=
    Option.isSome_iff_exists.mp (maxByCount_isSome _ hagg)
  have h3 : (workflowFinalState o log_files (some sel)).notification_results.isSome = true ∧
      (workflowFinalState o log_files (some sel)).current_step = "notifications_sent" := by
    unfold workflowFinalState
    rw [h2]
    simp [send_notifications_node, htop]
  refine ⟨send_notifications_node_step o _, ?_, h3.1, h3.2, rfl⟩
  intro hflag
  subst hflag
  rfl

/-- Witness for C10: one keyword-bearing log file, a selected solution, and
the flag off — the internal state holds dispatch results and the sent step,
while the returned dictionary hides them. -/
theorem run_workflow_notification_stage_spec_witness :
    ((run_workflow wOracle [wLogA] none false).current_step = "notifications_sent" ∨
     (run_workflow wOracle [wLogA] none false).current_step = "notification_skipped") ∧
    (run_workflow wOracle [wLogA] none false).notification_results = none ∧
    (workflowFinalState wOracle [wLogA]
      (some (rankOnlySolution 1))).notification_results.isSome = true ∧
    (workflowFinalState wOracle [wLogA]
      (some (rankOnlySolution 1))).current_step = "notifications_sent" ∧
    (run_workflow wOracle [wLogA] (some (rankOnlySolution 1)) false).notification_results = none :=
  have T := run_workflow_notification_stage_spec wOracle [wLogA] none false (rankOnlySolution 1)
    (by decide) (by decide)
  ⟨T.1, T.2.1 rfl, T.2.2.1, T.2.2.2.1, T.2.2.2.2⟩
